import Mathlib

/-!
Verification of the smsender credit-metered SMS relay (`src/server.js`).

The repository ships two deployment variants of the same server concatenated in
`server.js`: the SMSeem variant (lines 1-784) and the Mobivate variant
(lines 785-1413).  Both are embedded below.

Modelling conventions:
* JavaScript strings are sequences of UTF-16 code units.  Message bodies are
  modelled as `List Nat` of code units (`Msg`), because the calculator indexes
  the string with `charCodeAt`, which sees surrogate halves, not code points.
  Identifier-like strings (senders, phone numbers) are modelled as `List Char`
  (`Str`); they never carry astral code points in the paths we verify.
* The persisted ledger (`data.json`) is the `Store` structure; `readStore`'s
  defaulting is reflected in `freshStore` and in `Option` fields
  (`blockedSenders = none` models a missing field).
* Timestamps are integer milliseconds.  `Store.dueDate = none` models an
  absent or unparsable due date (`new Date(x)` giving `NaN`).
* Carrier HTTP calls are opaque: each handler takes the carrier's answer as a
  parameter and additionally reports (in its result) whether the carrier was
  reached at all.
* `toLowerCase` is modelled on the ASCII range, which covers every sender
  comparison the code performs (`'cal'`, `'isracard'`, the `[a-z0-9_-]`
  blocklist alphabet).
-/

namespace SMSender

/-- A JavaScript string viewed as characters (senders, phone numbers). -/
abbrev Str := List Char

/-- A JavaScript string viewed as UTF-16 code units (message bodies). -/
abbrev Msg := List Nat

/-- ASCII lower-casing of one character, as `toLowerCase` acts on `A`-`Z`. -/
def toLowerChar (c : Char) : Char :=
  if 'A' ≤ c ∧ c ≤ 'Z' then Char.ofNat (c.toNat + 32) else c

/-- `String.prototype.toLowerCase` on the ASCII range. -/
def toLowerStr (s : Str) : Str := s.map toLowerChar

/-- Whitespace characters recognised by `String.prototype.trim` (ASCII part). -/
def isSpaceChar (c : Char) : Bool :=
  decide (c = ' ' ∨ c = '\t' ∨ c = '\n' ∨ c = '\r')

/-- `String.prototype.trim`. -/
def trimChars (s : Str) : Str :=
  ((s.dropWhile isSpaceChar).reverse.dropWhile isSpaceChar).reverse

/-- server.js:148 `isNonEmptyString` (on identifier-like strings). -/
def isNonEmptyString (s : Str) : Bool := decide (trimChars s ≠ [])

/-- Whitespace code units recognised by `trim` (ASCII part), for messages. -/
def isSpaceUnit (u : Nat) : Bool := decide (u = 32 ∨ u = 9 ∨ u = 10 ∨ u = 13)

/-- `String.prototype.trim` on a code-unit string. -/
def trimMsg (m : Msg) : Msg :=
  ((m.dropWhile isSpaceUnit).reverse.dropWhile isSpaceUnit).reverse

/-- server.js:148 `isNonEmptyString` applied to a message body. -/
def isNonEmptyMessage (m : Msg) : Bool := decide (trimMsg m ≠ [])

/-- server.js:177-185: the emoji block test of `calculateCreditsForMessage`,
applied (as in the source) to one UTF-16 code unit (`charCodeAt`). -/
def isEmojiUnit (code : Nat) : Bool :=
  decide ((0x1F600 ≤ code ∧ code ≤ 0x1F64F) ∨
    (0x1F300 ≤ code ∧ code ≤ 0x1F5FF) ∨
    (0x1F680 ≤ code ∧ code ≤ 0x1F6FF) ∨
    (0x1F1E0 ≤ code ∧ code ≤ 0x1F1FF) ∨
    (0x2600 ≤ code ∧ code ≤ 0x26FF) ∨
    (0x2700 ≤ code ∧ code ≤ 0x27BF) ∨
    (0xFE00 ≤ code ∧ code ≤ 0xFE0F) ∨
    (0x1F900 ≤ code ∧ code ≤ 0x1F9FF) ∨
    (0x1F018 ≤ code ∧ code ≤ 0x1F0F5))

/-- server.js:177-195: the per-code-unit weight of the calculator's loop. -/
def unitWeight (code : Nat) : Nat :=
  if isEmojiUnit code then 3
  else if 127 < code then 2
  else 1

/-- server.js:171-196: `weightedLength` accumulated over the code units. -/
def weightedLength (text : Msg) : Nat := (text.map unitWeight).sum

/-- server.js:199-210: the credit ladder on `weightedLength`; `-1` is the
`REJECT_TOO_LONG` sentinel returned past 200. -/
def baseCreditsForLength (weightedLength : Nat) : Int :=
  if weightedLength ≤ 30 then 2
  else if weightedLength ≤ 50 then 4
  else if weightedLength ≤ 70 then 6
  else if weightedLength ≤ 90 then 8
  else if weightedLength ≤ 110 then 10
  else if weightedLength ≤ 130 then 12
  else if weightedLength ≤ 150 then 14
  else if weightedLength ≤ 170 then 16
  else if weightedLength ≤ 190 then 18
  else if weightedLength ≤ 200 then 20
  else -1

/-- server.js:167-218 `calculateCreditsForMessage` (identical in both
variants): `0` is `REJECT_EMPTY`, `-1` is `REJECT_TOO_LONG`; the `cal`
surcharge mirrors `if (sender && sender.toLowerCase() === 'cal')`. -/
def calculateCreditsForMessage (message : Msg) (sender : Str) : Int :=
  if message.length ≤ 0 then 0
  else
    let base := baseCreditsForLength (weightedLength message)
    if base = -1 then -1
    else if sender ≠ [] ∧ toLowerStr sender = ['c', 'a', 'l'] then base + 3
    else base

/-- UTF-16 encoding of one Unicode code point (the representation JavaScript
strings use; astral code points become a surrogate pair). -/
def utf16EncodeCp (c : Nat) : List Nat :=
  if c < 0x10000 then [c]
  else [0xD800 + (c - 0x10000) / 0x400, 0xDC00 + (c - 0x10000) % 0x400]

/-- UTF-16 encoding of a sequence of code points. -/
def utf16Encode (cps : List Nat) : List Nat := (cps.map utf16EncodeCp).flatten

/-- server.js:149-153 `normalizeMsisdn`: strip non-digits, accept 8-15 digits. -/
def normalizeMsisdn (input : Str) : Option Str :=
  let digits := input.filter Char.isDigit
  if digits.length < 8 ∨ 15 < digits.length then none
  else some digits

/-- server.js:237-254 `convertToIsraeliFormat`.  In the source the two
`startsWith('5')` branches return the same `'0' + local`, so they are one
branch here; a `972` number whose local part is not 9 digits falls through to
the `startsWith('0')` test, which its leading `9` always fails. -/
def convertToIsraeliFormat (phone : Str) : Option Str :=
  let digits := phone.filter Char.isDigit
  if digits.take 3 = ['9', '7', '2'] ∧ (digits.drop 3).length = 9 then
    some ('0' :: digits.drop 3)
  else if digits.take 1 = ['0'] ∧ 9 ≤ digits.length then
    some digits
  else
    none

/-- server.js:267 phone pattern `972-?\d{9}` (also the whole Mobivate-variant
pattern at line 1027). -/
def matches972 (s : Str) : Bool :=
  match s with
  | '9' :: '7' :: '2' :: rest =>
    let rest2 := if rest.take 1 = ['-'] then rest.drop 1 else rest
    decide (rest2.length = 9 ∧ rest2.all Char.isDigit)
  | _ => false

/-- server.js:267 phone pattern alternative `0\d{8,9}`. -/
def matchesLocal (s : Str) : Bool :=
  match s with
  | '0' :: rest => decide ((rest.length = 8 ∨ rest.length = 9) ∧ rest.all Char.isDigit)
  | _ => false

/-- server.js:267 the SMSeem-variant phone regex `^(972-?\d{9}|0\d{8,9})$`. -/
def phoneRegexSMSeem (s : Str) : Bool := matches972 s || matchesLocal s

/-- One entry of the persisted `logs` array (the fields each writer sets). -/
inductive LogEntry where
  | singleSend (sender : Str) (recipient : Str) (messageId : Str)
      (msgCredits : Int) (messagePreview : Msg) (creditsRemaining : Int)
  | batchSend (sender : Str) (count success : Nat) (failed : Option Nat)
      (msgCredits totalCreditsUsed : Int) (messagePreview : Msg) (creditsAfter : Int)
  | setCreditsEntry (creditsAfter : Int)
  | setDueDateEntry (dueDate : Int)
  | renewMonthEntry (newDueDate : Int)
  | setBlockedSendersEntry (senders : List Str)
  | addBlockedSenderEntry (sender : Str)
  | removeBlockedSenderEntry (sender : Str)
  deriving DecidableEq

/-- One entry of the persisted `deliveries` array. -/
structure Delivery where
  messageId : Str
  status : Str
  recipient : Str
  deriving DecidableEq

/-- The persisted ledger document `data.json` after `readStore` defaulting.
`dueDate = none` models an absent (or unparsable) due date; `blockedSenders =
none` models the field being missing from the document. -/
structure Store where
  credits : Int
  dueDate : Option Int
  blockedSenders : Option (List Str)
  logs : List LogEntry
  deliveries : List Delivery
  deriving DecidableEq

/-- server.js:65: the store `readStore` returns when `data.json` is missing or
malformed (no `blockedSenders` field). -/
def freshStore : Store := ⟨0, none, none, [], []⟩

/-- server.js:73-81 `appendLog`: prepend, keep the newest 1000. -/
def appendLog (store : Store) (e : LogEntry) : Store :=
  { store with logs := (e :: store.logs).take 1000 }

/-- server.js:83-91 `appendDelivery`: prepend, keep the newest 2000. -/
def appendDelivery (store : Store) (d : Delivery) : Store :=
  { store with deliveries := (d :: store.deliveries).take 2000 }

/-- One JavaScript day in milliseconds. -/
def dayMs : Int := 24 * 60 * 60 * 1000

/-- server.js:93-100 `computeIsExpired`: never expired without a (parsable)
due date, otherwise expired iff `now` exceeds `dueDate + 24h - 1ms`. -/
def computeIsExpired (now : Int) (store : Store) : Bool :=
  match store.dueDate with
  | none => false
  | some d => decide (now > d + dayMs - 1)

/-- server.js:156-159 `getBlockedSenders`: stored list, or `['isracard']` when
the field is missing.  (In JavaScript an empty stored array is truthy and is
returned as-is, matching `Option.getD`.) -/
def getBlockedSenders (store : Store) : List Str :=
  store.blockedSenders.getD [['i', 's', 'r', 'a', 'c', 'a', 'r', 'd']]

/-- server.js:941 (Mobivate variant): the hard-coded `BLOCKED_SENDERS`. -/
def BLOCKED_SENDERS : List Str := [['i', 's', 'r', 'a', 'c', 'a', 'r', 'd']]

/-- Body of `POST /api/sms/send`. -/
structure SendRequest where
  «to» : Str
  message : Msg
  sender : Str
  deriving DecidableEq

/-- Body of `POST /api/sms/send-batch`.  `recipients` is the array form; a
string body is first split on `[\s,;]+` (server.js:394), yielding the same
list shape. -/
structure BatchRequest where
  sender : Str
  message : Msg
  recipients : List Str
  deriving DecidableEq

/-- The SMSeem single-send carrier answer (server.js:303-371): an `error`
field, a `success: true` envelope, an unexpected shape, an HTTP error with a
status (0 models a falsy status), or a network failure. -/
inductive SingleCarrier where
  | errorResp (msg : Str)
  | success (messageId : Str) (creditsRemaining : Int)
  | unexpected
  | httpError (status : Nat)
  | networkError
  deriving DecidableEq

/-- Outcome of the SMSeem-variant `POST /api/sms/send` handler. -/
inductive SendResult where
  | expired
  | badPhone
  | missingMessage
  | emptyMessage
  | tooLong
  | missingSender
  | blockedSender
  | invalidPhone
  | providerError (msg : Str)
  | okSent (messageId : Str) (creditsUsed : Int) (creditsRemaining : Int)
  | unexpectedResponse
  | upstreamError (status : Nat)
  | gatewayError
  deriving DecidableEq

/-- HTTP status of each `SendResult` (server.js:257-373). -/
def sendStatus : SendResult → Nat
  | .expired => 402
  | .badPhone => 400
  | .missingMessage => 400
  | .emptyMessage => 400
  | .tooLong => 400
  | .missingSender => 400
  | .blockedSender => 400
  | .invalidPhone => 400
  | .providerError _ => 400
  | .okSent _ _ _ => 200
  | .unexpectedResponse => 502
  | .upstreamError n => if n = 0 then 502 else n
  | .gatewayError => 502

/-- server.js:257-373, SMSeem `POST /api/sms/send`.  The result also carries
the resulting store and whether the carrier was called.  (The
`SMSEEM_API_KEY` configuration check is environment glue and is assumed to
pass.)  On carrier success a `single_send` log entry is appended -- with the
`message.slice(0, 40)` preview -- before the 200 response; no credits are
deducted on this path. -/
def sendSingleSMSeem (now : Int) (store : Store) (req : SendRequest)
    (carrier : SingleCarrier) : SendResult × Store × Bool :=
  if computeIsExpired now store then (.expired, store, false)
  else if ¬ (isNonEmptyString req.«to» ∧ phoneRegexSMSeem req.«to») then (.badPhone, store, false)
  else if ¬ isNonEmptyMessage req.message then (.missingMessage, store, false)
  else
    let msgCredits := calculateCreditsForMessage req.message req.sender
    if msgCredits = 0 then (.emptyMessage, store, false)
    else if msgCredits < 0 then (.tooLong, store, false)
    else if ¬ isNonEmptyString req.sender then (.missingSender, store, false)
    else if toLowerStr req.sender ∈ getBlockedSenders store then (.blockedSender, store, false)
    else
      match convertToIsraeliFormat req.«to» with
      | none => (.invalidPhone, store, false)
      | some recipient =>
        match carrier with
        | .errorResp m => (.providerError m, store, true)
        | .success messageId creditsRemaining =>
          let store2 := appendLog store (.singleSend req.sender recipient messageId
            msgCredits (req.message.take 40) creditsRemaining)
          (.okSent messageId msgCredits creditsRemaining, store2, true)
        | .unexpected => (.unexpectedResponse, store, true)
        | .httpError n => (.upstreamError n, store, true)
        | .networkError => (.gatewayError, store, true)

/-- The Mobivate single-send carrier answer (server.js:1054-1071): a 2xx
provider response, an HTTP error, or a network failure. -/
inductive MobCarrier where
  | okResp
  | httpError (status : Nat)
  | networkError
  deriving DecidableEq

/-- Outcome of the Mobivate-variant `POST /api/sms/send` handler. -/
inductive MobSendResult where
  | expired
  | badPhone
  | missingMessage
  | emptyMessage
  | tooLong
  | missingSender
  | blockedSender
  | invalidPhone
  | okSent (creditsUsed : Int)
  | upstreamError (status : Nat)
  | gatewayError
  deriving DecidableEq

/-- HTTP status of each `MobSendResult` (server.js:1019-1072). -/
def mobSendStatus : MobSendResult → Nat
  | .expired => 402
  | .badPhone => 400
  | .missingMessage => 400
  | .emptyMessage => 400
  | .tooLong => 400
  | .missingSender => 400
  | .blockedSender => 400
  | .invalidPhone => 400
  | .okSent _ => 200
  | .upstreamError n => if n = 0 then 502 else n
  | .gatewayError => 502

/-- server.js:1019-1072, Mobivate `POST /api/sms/send`.  On carrier success it
responds 200 with `creditsUsed` but writes nothing: no log entry and no credit
deduction. -/
def sendSingleMobivate (now : Int) (store : Store) (req : SendRequest)
    (carrier : MobCarrier) : MobSendResult × Store × Bool :=
  if computeIsExpired now store then (.expired, store, false)
  else if ¬ (isNonEmptyString req.«to» ∧ matches972 req.«to») then (.badPhone, store, false)
  else if ¬ isNonEmptyMessage req.message then (.missingMessage, store, false)
  else
    let msgCredits := calculateCreditsForMessage req.message req.sender
    if msgCredits = 0 then (.emptyMessage, store, false)
    else if msgCredits < 0 then (.tooLong, store, false)
    else if ¬ isNonEmptyString req.sender then (.missingSender, store, false)
    else if toLowerStr req.sender ∈ BLOCKED_SENDERS then (.blockedSender, store, false)
    else
      match normalizeMsisdn req.«to» with
      | none => (.invalidPhone, store, false)
      | some _ =>
        match carrier with
        | .okResp => (.okSent msgCredits, store, true)
        | .httpError n => (.upstreamError n, store, true)
        | .networkError => (.gatewayError, store, true)

/-- Helper for `dedupKeepFirst`: keep each element not seen before. -/
def dedupAux {α : Type} [DecidableEq α] (seen : List α) : List α → List α
  | [] => []
  | a :: l => if a ∈ seen then dedupAux seen l else a :: dedupAux (a :: seen) l

/-- First-occurrence deduplication, as `Array.from(new Set(xs))` produces
(a JavaScript `Set` iterates in insertion order). -/
def dedupKeepFirst {α : Type} [DecidableEq α] (l : List α) : List α := dedupAux [] l

/-- server.js:398-402: the SMSeem-variant recipient pipeline -- trim, drop
empties (`filter(Boolean)`), normalize, drop failures. -/
def normalizedSMSeem (list : List Str) : List Str :=
  ((list.map trimChars).filter (fun v => v ≠ [])).filterMap convertToIsraeliFormat

/-- server.js:1096-1100: the Mobivate-variant recipient pipeline. -/
def normalizedMobivate (list : List Str) : List Str :=
  ((list.map trimChars).filter (fun v => v ≠ [])).filterMap normalizeMsisdn

/-- The SMSeem batch carrier answer (server.js:430-528): `error` field,
`success: true` with `sent` / `failed` / `failedNumbers`, unexpected shape,
HTTP error, or network failure. -/
inductive BatchCarrier where
  | errorResp (msg : Str)
  | success (sent failed : Nat) (failedNumbers : List Str)
  | unexpected
  | httpError (status : Nat)
  | networkError
  deriving DecidableEq

/-- Outcome of a `POST /api/sms/send-batch` handler (either variant; the
Mobivate response carries no `failed` count, hence the `Option`). -/
inductive BatchResult where
  | expired
  | missingSender
  | blockedSender
  | missingMessage
  | emptyMessage
  | tooLong
  | noRecipients
  | insufficientCredits (needed perMessage : Int) (recipients : Nat) (credits : Int)
  | providerError (msg : Str)
  | okSent (attempted success : Nat) (failed : Option Nat)
      (perMessage totalUsed credits : Int)
  | unexpectedResponse
  | upstreamError (status : Nat)
  | gatewayError
  deriving DecidableEq

/-- HTTP status of each `BatchResult` (server.js:376-534). -/
def batchStatus : BatchResult → Nat
  | .expired => 402
  | .missingSender => 400
  | .blockedSender => 400
  | .missingMessage => 400
  | .emptyMessage => 400
  | .tooLong => 400
  | .noRecipients => 400
  | .insufficientCredits _ _ _ _ => 402
  | .providerError _ => 400
  | .okSent _ _ _ _ _ _ => 200
  | .unexpectedResponse => 502
  | .upstreamError n => if n = 0 then 502 else n
  | .gatewayError => 502

/-- server.js:376-534, SMSeem `POST /api/sms/send-batch`.  On a carrier
success envelope it deducts `sent * msgCredits` (the carrier-accepted count)
and appends the `batch_send` log entry. -/
def sendBatchSMSeem (now : Int) (store : Store) (req : BatchRequest)
    (carrier : BatchCarrier) : BatchResult × Store × Bool :=
  if computeIsExpired now store then (.expired, store, false)
  else if ¬ isNonEmptyString req.sender then (.missingSender, store, false)
  else if toLowerStr req.sender ∈ getBlockedSenders store then (.blockedSender, store, false)
  else if ¬ isNonEmptyMessage req.message then (.missingMessage, store, false)
  else
    let msgCredits := calculateCreditsForMessage req.message req.sender
    if msgCredits = 0 then (.emptyMessage, store, false)
    else if msgCredits < 0 then (.tooLong, store, false)
    else
      let uniqueRecipients := dedupKeepFirst (normalizedSMSeem req.recipients)
      if uniqueRecipients.length = 0 then (.noRecipients, store, false)
      else
        let totalNeeded : Int := uniqueRecipients.length * msgCredits
        if store.credits < totalNeeded then
          (.insufficientCredits totalNeeded msgCredits uniqueRecipients.length store.credits,
            store, false)
        else
          match carrier with
          | .errorResp m => (.providerError m, store, true)
          | .unexpected => (.unexpectedResponse, store, true)
          | .httpError n => (.upstreamError n, store, true)
          | .networkError => (.gatewayError, store, true)
          | .success sent failed _failedNumbers =>
            let creditsUsed : Int := sent * msgCredits
            let store1 := { store with credits := store.credits - creditsUsed }
            let store2 := appendLog store1 (.batchSend req.sender uniqueRecipients.length
              sent (some failed) msgCredits creditsUsed (req.message.take 40) store1.credits)
            (.okSent uniqueRecipients.length sent (some failed) msgCredits creditsUsed
              store1.credits, store2, true)

/-- server.js:1075-1148, Mobivate `POST /api/sms/send-batch`.  The carrier is
called once per unique recipient; `carrierOk` tells which of those sequential
calls succeed.  Whatever the per-recipient outcomes, it deducts the full
`totalNeeded = uniqueRecipients.length * msgCredits` (server.js:1140-1141). -/
def sendBatchMobivate (now : Int) (store : Store) (req : BatchRequest)
    (carrierOk : Str → Bool) : BatchResult × Store × Bool :=
  if computeIsExpired now store then (.expired, store, false)
  else if ¬ isNonEmptyString req.sender then (.missingSender, store, false)
  else if toLowerStr req.sender ∈ BLOCKED_SENDERS then (.blockedSender, store, false)
  else if ¬ isNonEmptyMessage req.message then (.missingMessage, store, false)
  else
    let msgCredits := calculateCreditsForMessage req.message req.sender
    if msgCredits = 0 then (.emptyMessage, store, false)
    else if msgCredits < 0 then (.tooLong, store, false)
    else
      let uniqueRecipients := dedupKeepFirst (normalizedMobivate req.recipients)
      if uniqueRecipients.length = 0 then (.noRecipients, store, false)
      else
        let totalNeeded : Int := uniqueRecipients.length * msgCredits
        if store.credits < totalNeeded then
          (.insufficientCredits totalNeeded msgCredits uniqueRecipients.length store.credits,
            store, false)
        else
          let success := (uniqueRecipients.filter carrierOk).length
          let store1 := { store with credits := store.credits - totalNeeded }
          let store2 := appendLog store1 (.batchSend req.sender uniqueRecipients.length
            success none msgCredits totalNeeded (req.message.take 40) store1.credits)
          (.okSent uniqueRecipients.length success none msgCredits totalNeeded
            store1.credits, store2, true)

/-- server.js:571-578, `POST /api/credits/set`: reject a negative value (400,
modelled as `none`), otherwise overwrite the balance and log.  The numeric
input is modelled as an integer, on which `Math.floor` is the identity. -/
def setCreditsOp (store : Store) (num : Int) : Option Store :=
  if num < 0 then none
  else
    let store1 := { store with credits := num }
    some (appendLog store1 (.setCreditsEntry store1.credits))

/-- server.js:641-649, `POST /api/due-date/set` with an already-parsed date
(`parseDateInput` failure, i.e. `none`, is rejected with 400 before any
write). -/
def setDueDateOp (store : Store) (d : Option Int) : Option Store :=
  match d with
  | none => none
  | some t =>
    let store1 := { store with dueDate := some t }
    some (appendLog store1 (.setDueDateEntry t))

/-- server.js:652-663, `POST /api/due-date/renew-month`, parametrised by the
computed next due instant (the calendar arithmetic itself is `addOneMonth`
below). -/
def renewMonthOp (store : Store) (newDue : Int) : Store :=
  let store1 := { store with dueDate := some newDue }
  appendLog store1 (.renewMonthEntry newDue)

/-- server.js:679-682: the sender-name sanitation of the blocklist routes. -/
def isValidSenderName (s : Str) : Bool :=
  decide (s ≠ [] ∧ s.length ≤ 20 ∧
    s.all (fun c => decide (c.isLower ∨ c.isDigit ∨ c = '_' ∨ c = '-')))

/-- server.js:672-687, `POST /api/blocked-senders/set`. -/
def setBlockedSendersOp (store : Store) (input : List Str) : Store :=
  let validSenders := (input.map (fun s => toLowerStr (trimChars s))).filter isValidSenderName
  let store1 := { store with blockedSenders := some validSenders }
  appendLog store1 (.setBlockedSendersEntry validSenders)

/-- server.js:690-710, `POST /api/blocked-senders/add` (`none` = 400). -/
def addBlockedSenderOp (store : Store) (sender : Str) : Option Store :=
  if ¬ isNonEmptyString sender then none
  else
    let normalizedSender := toLowerStr (trimChars sender)
    if ¬ isValidSenderName normalizedSender then none
    else
      let currentBlocked := getBlockedSenders store
      if normalizedSender ∈ currentBlocked then none
      else
        let newBlocked := currentBlocked ++ [normalizedSender]
        let store1 := { store with blockedSenders := some newBlocked }
        some (appendLog store1 (.addBlockedSenderEntry normalizedSender))

/-- server.js:713-730, `POST /api/blocked-senders/remove` (`none` = 400). -/
def removeBlockedSenderOp (store : Store) (sender : Str) : Option Store :=
  if ¬ isNonEmptyString sender then none
  else
    let normalizedSender := toLowerStr (trimChars sender)
    let currentBlocked := getBlockedSenders store
    let newBlocked := currentBlocked.filter (fun s => s ≠ normalizedSender)
    if newBlocked.length = currentBlocked.length then none
    else
      let store1 := { store with blockedSenders := some newBlocked }
      some (appendLog store1 (.removeBlockedSenderEntry normalizedSender))

/-- JavaScript leap-year rule (the Gregorian one `Date` implements). -/
def isLeapYear (y : Int) : Bool :=
  decide (y % 4 = 0 ∧ (y % 100 ≠ 0 ∨ y % 400 = 0))

/-- Length of month `m` (0-based as in JavaScript `Date`) of year `y`. -/
def daysInMonth (y : Int) (m : Nat) : Nat :=
  if m = 1 then (if isLeapYear y then 29 else 28)
  else if m = 3 ∨ m = 5 ∨ m = 8 ∨ m = 10 then 30
  else 31

/-- A calendar date as `Date#getFullYear` / `getMonth` (0-based) /
`getDate` expose it. -/
structure CalDate where
  year : Int
  month : Nat
  day : Nat
  deriving DecidableEq

/-- A date whose components actually denote a calendar day. -/
def CalDate.valid (d : CalDate) : Prop :=
  d.month ≤ 11 ∧ 1 ≤ d.day ∧ d.day ≤ daysInMonth d.year d.month

/-- The month after `(y, m)`. -/
def nextMonth (y : Int) (m : Nat) : Int × Nat :=
  if m = 11 then (y + 1, 0) else (y, m + 1)

/-- JavaScript `d.setMonth(d.getMonth() + 1)`: bump the month and let an
out-of-range day overflow into the following month (for a valid input date the
overflow is at most 3 days, so one carry step is the full normalization). -/
def setMonthPlusOne (d : CalDate) : CalDate :=
  let p := nextMonth d.year d.month
  if d.day ≤ daysInMonth p.1 p.2 then ⟨p.1, p.2, d.day⟩
  else
    let q := nextMonth p.1 p.2
    ⟨q.1, q.2, d.day - daysInMonth p.1 p.2⟩

/-- JavaScript `d.setDate(0)`: the last day of the preceding month. -/
def setDateZero (d : CalDate) : CalDate :=
  let p := if d.month = 0 then (d.year - 1, 11) else (d.year, d.month - 1)
  ⟨p.1, p.2, daysInMonth p.1 p.2⟩

/-- server.js:631-638 `addOneMonth`: `setMonth(+1)`, then if the
day-of-month shrank (month rollover) clamp back with `setDate(0)`. -/
def addOneMonth (d : CalDate) : CalDate :=
  let d2 := setMonthPlusOne d
  if d2.day < d.day then setDateZero d2 else d2

/-- Sample inputs from the spec's batch-dedup example. -/
def phoneIntl : Str := ['9', '7', '2', '5', '0', '1', '2', '3', '4', '5', '6', '7']

/-- Sample Israeli-format phone: the canonical form of `phoneIntl`. -/
def phoneLocal : Str := ['0', '5', '0', '1', '2', '3', '4', '5', '6', '7']

/-- Sample dashed international phone from the spec's dedup example. -/
def phoneDashed : Str :=
  ['9', '7', '2', '-', '5', '0', '-', '1', '2', '3', '4', '5', '6', '7']

/-- A second, distinct local phone number used by counterexamples. -/
def phoneLocal2 : Str := ['0', '5', '2', '1', '2', '3', '4', '5', '6', '7']

/-- A benign sender name used by examples. -/
def demoSender : Str := ['s', 'h', 'o', 'p']

/-- The two-ASCII-character message `hi` (cost 2). -/
def msgHi : Msg := [104, 105]

/-!  ## Auxiliary lemmas  -/

theorem mem_dedupAux {α : Type} [DecidableEq α] (x : α) :
    ∀ (l seen : List α), x ∈ dedupAux seen l ↔ x ∈ l ∧ x ∉ seen := by
  intro l
  induction l with
  | nil => intro seen; simp [dedupAux]
  | cons a l ih =>
    intro seen
    by_cases ha : a ∈ seen
    · rw [dedupAux, if_pos ha, ih]
      by_cases hx : x = a
      · subst hx; simp [ha]
      · simp [hx]
    · rw [dedupAux, if_neg ha]
      by_cases hx : x = a
      · subst hx; simp [ha]
      · simp only [List.mem_cons, hx, false_or, ih, List.mem_cons, not_or]

theorem nodup_dedupAux {α : Type} [DecidableEq α] :
    ∀ (l seen : List α), (dedupAux seen l).Nodup := by
  intro l
  induction l with
  | nil => intro seen; simp [dedupAux]
  | cons a l ih =>
    intro seen
    by_cases ha : a ∈ seen
    · rw [dedupAux, if_pos ha]; exact ih seen
    · rw [dedupAux, if_neg ha, List.nodup_cons]
      refine ⟨fun hmem => ?_, ih _⟩
      exact ((mem_dedupAux a l (a :: seen)).mp hmem).2 (List.mem_cons_self a seen)

theorem mem_dedupKeepFirst {α : Type} [DecidableEq α] (x : α) (l : List α) :
    x ∈ dedupKeepFirst l ↔ x ∈ l := by
  rw [dedupKeepFirst, mem_dedupAux]
  simp

theorem nodup_dedupKeepFirst {α : Type} [DecidableEq α] (l : List α) :
    (dedupKeepFirst l).Nodup :=
  nodup_dedupAux l []

set_option maxRecDepth 8000 in
theorem baseCredits_mono_step :
    ∀ L < 200, baseCreditsForLength L ≤ baseCreditsForLength (L + 1) := by decide

theorem baseCredits_mono : ∀ L M : Nat, L ≤ M → M ≤ 200 →
    baseCreditsForLength L ≤ baseCreditsForLength M := by
  intro L M h1
  induction h1 with
  | refl => intro _; exact le_refl _
  | @step m h ih =>
    intro h2
    exact le_trans (ih (by omega)) (baseCredits_mono_step m (by omega))

/-!  ## Claim theorems  -/

/-- C2 (code bug): the spec says each code point in the listed emoji blocks
weighs 3, and the source's own comments say `Emoji = 3 characters`; but the
loop reads UTF-16 code units (`charCodeAt`), so an astral-plane emoji such as
U+1F600 is seen as the surrogate pair `0xD83D, 0xDE00`, neither half matches
any listed block, and the emoji weighs 2 + 2 = 4.  Only the BMP blocks
(`U+2600-U+26FF`, `U+2700-U+27BF`, `U+FE00-U+FE0F`) can ever match, and those
do weigh 3. -/
theorem c2_emoji_weight_bug :
    utf16Encode [0x1F600] = [0xD83D, 0xDE00] ∧
    weightedLength (utf16Encode [0x1F600]) = 4 ∧
    isEmojiUnit 0xD83D = false ∧
    isEmojiUnit 0xDE00 = false ∧
    weightedLength (utf16Encode [0x2600]) = 3 ∧
    weightedLength (utf16Encode [0x41]) = 1 ∧
    weightedLength (utf16Encode [0x5D0]) = 2 := by
  decide

set_option maxHeartbeats 1600000 in
/-- C3: the base credit cost is the fixed ascending ladder over the weighted
length `L`; an empty message yields the `REJECT_EMPTY` sentinel `0`; `L > 200`
yields the `REJECT_TOO_LONG` sentinel `-1`; the ladder is total and
monotonically non-decreasing over `L ∈ [1, 200]`. -/
theorem c3_credit_ladder :
    (∀ s : Str, calculateCreditsForMessage [] s = 0) ∧
    (∀ (m : Msg) (s : Str), m ≠ [] →
      ¬(s ≠ [] ∧ toLowerStr s = ['c', 'a', 'l']) →
      calculateCreditsForMessage m s = baseCreditsForLength (weightedLength m)) ∧
    (∀ (m : Msg) (s : Str), m ≠ [] → 200 < weightedLength m →
      calculateCreditsForMessage m s = -1) ∧
    (∀ L, 1 ≤ L → L ≤ 30 → baseCreditsForLength L = 2) ∧
    (∀ L, 31 ≤ L → L ≤ 50 → baseCreditsForLength L = 4) ∧
    (∀ L, 51 ≤ L → L ≤ 70 → baseCreditsForLength L = 6) ∧
    (∀ L, 71 ≤ L → L ≤ 90 → baseCreditsForLength L = 8) ∧
    (∀ L, 91 ≤ L → L ≤ 110 → baseCreditsForLength L = 10) ∧
    (∀ L, 111 ≤ L → L ≤ 130 → baseCreditsForLength L = 12) ∧
    (∀ L, 131 ≤ L → L ≤ 150 → baseCreditsForLength L = 14) ∧
    (∀ L, 151 ≤ L → L ≤ 170 → baseCreditsForLength L = 16) ∧
    (∀ L, 171 ≤ L → L ≤ 190 → baseCreditsForLength L = 18) ∧
    (∀ L, 191 ≤ L → L ≤ 200 → baseCreditsForLength L = 20) ∧
    (∀ L, 200 < L → baseCreditsForLength L = -1) ∧
    (∀ L M, 1 ≤ L → L ≤ M → M ≤ 200 →
      baseCreditsForLength L ≤ baseCreditsForLength M) := by
  have hlen : ∀ m : Msg, m ≠ [] → ¬ m.length ≤ 0 := by
    intro m hm
    cases m with
    | nil => exact absurd rfl hm
    | cons a l => simp
  have hbig : ∀ m : Msg, 200 < weightedLength m →
      baseCreditsForLength (weightedLength m) = -1 := by
    intro m hL
    unfold baseCreditsForLength
    split_ifs <;> omega
  refine ⟨?_, ?_, ?_, ?_, ?_, ?_, ?_, ?_, ?_, ?_, ?_, ?_, ?_, ?_, ?_⟩
  · intro s; rfl
  · intro m s hm hcal
    unfold calculateCreditsForMessage
    rw [if_neg (hlen m hm)]
    by_cases hb : baseCreditsForLength (weightedLength m) = -1
    · simp [hb]
    · simp [hb, hcal]
  · intro m s hm hL
    unfold calculateCreditsForMessage
    rw [if_neg (hlen m hm)]
    simp [hbig m hL]
  · intro L h1 h2; unfold baseCreditsForLength; split_ifs <;> omega
  · intro L h1 h2; unfold baseCreditsForLength; split_ifs <;> omega
  · intro L h1 h2; unfold baseCreditsForLength; split_ifs <;> omega
  · intro L h1 h2; unfold baseCreditsForLength; split_ifs <;> omega
  · intro L h1 h2; unfold baseCreditsForLength; split_ifs <;> omega
  · intro L h1 h2; unfold baseCreditsForLength; split_ifs <;> omega
  · intro L h1 h2; unfold baseCreditsForLength; split_ifs <;> omega
  · intro L h1 h2; unfold baseCreditsForLength; split_ifs <;> omega
  · intro L h1 h2; unfold baseCreditsForLength; split_ifs <;> omega
  · intro L h1 h2; unfold baseCreditsForLength; split_ifs <;> omega
  · intro L h; unfold baseCreditsForLength; split_ifs <;> omega
  · intro L M h1 h2 h3; exact baseCredits_mono L M h2 h3

/-- C3 witness: the ladder theorem applied at concrete points. -/
theorem c3_credit_ladder_witness :
    calculateCreditsForMessage [] ['a'] = 0 ∧
    calculateCreditsForMessage (List.replicate 5 104) demoSender =
      baseCreditsForLength (weightedLength (List.replicate 5 104)) ∧
    baseCreditsForLength 40 = 4 ∧
    baseCreditsForLength 201 = -1 ∧
    baseCreditsForLength 15 ≤ baseCreditsForLength 180 := by
  obtain ⟨h1, h2, h3, h4, h5, h6, h7, h8, h9, h10, h11, h12, h13, h14, h15⟩ :=
    c3_credit_ladder
  exact ⟨h1 _, h2 _ _ (by decide) (by decide), h5 40 (by decide) (by decide),
    h14 201 (by decide), h15 15 180 (by decide) (by decide) (by decide)⟩

/-- C5: a batch send whose stored balance is below
`totalNeeded = perMessage * uniqueRecipients` is rejected (402) reporting the
needed and available figures, the carrier is not called, and the ledger is
unchanged -- whatever the carrier would have answered. -/
theorem c5_insufficient_credits (now : Int) (store : Store) (req : BatchRequest)
    (carrier : BatchCarrier)
    (hexp : computeIsExpired now store = false)
    (hsender : isNonEmptyString req.sender = true)
    (hblock : toLowerStr req.sender ∉ getBlockedSenders store)
    (hmsg : isNonEmptyMessage req.message = true)
    (hcred : 0 < calculateCreditsForMessage req.message req.sender)
    (hrec : (dedupKeepFirst (normalizedSMSeem req.recipients)).length ≠ 0)
    (hins : store.credits < (dedupKeepFirst (normalizedSMSeem req.recipients)).length *
      calculateCreditsForMessage req.message req.sender) :
    sendBatchSMSeem now store req carrier =
      (.insufficientCredits
        ((dedupKeepFirst (normalizedSMSeem req.recipients)).length *
          calculateCreditsForMessage req.message req.sender)
        (calculateCreditsForMessage req.message req.sender)
        (dedupKeepFirst (normalizedSMSeem req.recipients)).length
        store.credits,
      store, false) := by
  have h1 : calculateCreditsForMessage req.message req.sender ≠ 0 := by omega
  have h2 : ¬ calculateCreditsForMessage req.message req.sender < 0 := by omega
  simp [sendBatchSMSeem, hexp, hsender, hblock, hmsg, h1, h2, hrec, hins]

/-- C5 witness: balance 5, per-message cost 6 (a 51-ASCII-character message),
one recipient: rejected with needed 6 and credits 5, ledger untouched, no
carrier call. -/
theorem c5_insufficient_credits_witness :
    sendBatchSMSeem 0 { freshStore with credits := 5 }
        ⟨demoSender, List.replicate 51 97, [phoneLocal]⟩ .unexpected =
      (.insufficientCredits 6 6 1 5, { freshStore with credits := 5 }, false) := by
  have h := c5_insufficient_credits 0 { freshStore with credits := 5 }
    ⟨demoSender, List.replicate 51 97, [phoneLocal]⟩ .unexpected
    (by decide) (by decide) (by decide) (by decide) (by decide) (by decide) (by decide)
  rw [h]
  decide

/-- C6: the subscription gate is exactly: never expired without a (parsable)
due date, otherwise expired iff `now` strictly exceeds `dueDate + 24h - 1ms`;
and every send or batch-send handler of either variant refuses an expired
ledger (402) before looking at phone, message, sender, or cost. -/
theorem c6_subscription_gate :
    (∀ (now : Int) (store : Store), store.dueDate = none →
      computeIsExpired now store = false) ∧
    (∀ (now : Int) (store : Store) (d : Int), store.dueDate = some d →
      (computeIsExpired now store = true ↔ now > d + dayMs - 1)) ∧
    (∀ (now : Int) (store : Store) (req : SendRequest) (carrier : SingleCarrier),
      computeIsExpired now store = true →
      sendSingleSMSeem now store req carrier = (.expired, store, false)) ∧
    (∀ (now : Int) (store : Store) (req : SendRequest) (carrier : MobCarrier),
      computeIsExpired now store = true →
      sendSingleMobivate now store req carrier = (.expired, store, false)) ∧
    (∀ (now : Int) (store : Store) (req : BatchRequest) (carrier : BatchCarrier),
      computeIsExpired now store = true →
      sendBatchSMSeem now store req carrier = (.expired, store, false)) ∧
    (∀ (now : Int) (store : Store) (req : BatchRequest) (carrierOk : Str → Bool),
      computeIsExpired now store = true →
      sendBatchMobivate now store req carrierOk = (.expired, store, false)) ∧
    sendStatus .expired = 402 ∧ mobSendStatus .expired = 402 ∧
    batchStatus .expired = 402 := by
  refine ⟨?_, ?_, ?_, ?_, ?_, ?_, rfl, rfl, rfl⟩
  · intro now store h; simp [computeIsExpired, h]
  · intro now store d h; simp [computeIsExpired, h]
  · intro now store req carrier h; simp [sendSingleSMSeem, h]
  · intro now store req carrier h; simp [sendSingleMobivate, h]
  · intro now store req carrier h; simp [sendBatchSMSeem, h]
  · intro now store req carrierOk h; simp [sendBatchMobivate, h]

/-- C6 witness: with `dueDate = 0` and the clock one full day later, the
ledger is expired and a batch request that is otherwise entirely invalid
(empty sender, message and recipients) is still answered with the expiry
refusal, showing the gate runs before any validation. -/
theorem c6_subscription_gate_witness :
    computeIsExpired 86400000 { freshStore with dueDate := some 0 } = true ∧
    computeIsExpired 86399999 { freshStore with dueDate := some 0 } = false ∧
    sendBatchSMSeem 86400000 { freshStore with dueDate := some 0 } ⟨[], [], []⟩
        .unexpected =
      (.expired, { freshStore with dueDate := some 0 }, false) := by
  have h : computeIsExpired 86400000 { freshStore with dueDate := some 0 } = true := by
    decide
  exact ⟨h, by decide, c6_subscription_gate.2.2.2.2.1 86400000 _ _ _ h⟩

/-- C9: batch recipients are trimmed, normalized and deduplicated to the set
of distinct canonical values (no duplicates, same membership), so raw inputs
that canonicalize identically are dispatched and charged once; and the
handler's `totalNeeded` figure is per-message cost times the number of
distinct canonical recipients, as the final conjunct exhibits on the spec's
example (three raw spellings of one number price as one recipient: needed 2,
not 6). -/
theorem c9_recipient_dedup :
    (∀ l : List Str, (dedupKeepFirst l).Nodup) ∧
    (∀ (l : List Str) (x : Str), x ∈ dedupKeepFirst l ↔ x ∈ l) ∧
    convertToIsraeliFormat phoneIntl = some phoneLocal ∧
    convertToIsraeliFormat phoneDashed = some phoneLocal ∧
    convertToIsraeliFormat phoneLocal = some phoneLocal ∧
    normalizedSMSeem [phoneIntl, phoneLocal, phoneDashed] =
      [phoneLocal, phoneLocal, phoneLocal] ∧
    dedupKeepFirst (normalizedSMSeem [phoneIntl, phoneLocal, phoneDashed]) =
      [phoneLocal] ∧
    sendBatchSMSeem 0 { freshStore with credits := 1 }
        ⟨demoSender, msgHi, [phoneIntl, phoneLocal, phoneDashed]⟩ .unexpected =
      (.insufficientCredits 2 2 1 1, { freshStore with credits := 1 }, false) := by
  exact ⟨nodup_dedupKeepFirst, fun l x => mem_dedupKeepFirst x l, by decide, by decide,
    by decide, by decide, by decide, by decide⟩

/-- C10: with no `blockedSenders` field persisted, the blocklist defaults to
exactly `['isracard']`, and on a fresh store every send or batch-send whose
sender lower-cases to `isracard` is answered 400 (whether it dies on the
blocklist check itself or on an earlier 400 validation), in both variants. -/
theorem c10_default_blocklist :
    getBlockedSenders freshStore = [['i', 's', 'r', 'a', 'c', 'a', 'r', 'd']] ∧
    BLOCKED_SENDERS = [['i', 's', 'r', 'a', 'c', 'a', 'r', 'd']] ∧
    (∀ (now : Int) (req : SendRequest) (carrier : SingleCarrier),
      toLowerStr req.sender = ['i', 's', 'r', 'a', 'c', 'a', 'r', 'd'] →
      sendStatus (sendSingleSMSeem now freshStore req carrier).1 = 400) ∧
    (∀ (now : Int) (req : SendRequest) (carrier : MobCarrier),
      toLowerStr req.sender = ['i', 's', 'r', 'a', 'c', 'a', 'r', 'd'] →
      mobSendStatus (sendSingleMobivate now freshStore req carrier).1 = 400) ∧
    (∀ (now : Int) (req : BatchRequest) (carrier : BatchCarrier),
      toLowerStr req.sender = ['i', 's', 'r', 'a', 'c', 'a', 'r', 'd'] →
      batchStatus (sendBatchSMSeem now freshStore req carrier).1 = 400) ∧
    (∀ (now : Int) (req : BatchRequest) (carrierOk : Str → Bool),
      toLowerStr req.sender = ['i', 's', 'r', 'a', 'c', 'a', 'r', 'd'] →
      batchStatus (sendBatchMobivate now freshStore req carrierOk).1 = 400) := by
  refine ⟨rfl, rfl, ?_, ?_, ?_, ?_⟩
  · intro now req carrier h
    have hmem : toLowerStr req.sender ∈ getBlockedSenders freshStore := by
      rw [h]; decide
    simp only [sendSingleSMSeem]
    split_ifs <;>
      first
      | rfl
      | exact absurd hmem (by assumption)
      | exact Bool.noConfusion (show false = true by assumption)
  · intro now req carrier h
    have hmem : toLowerStr req.sender ∈ BLOCKED_SENDERS := by
      rw [h]; decide
    simp only [sendSingleMobivate]
    split_ifs <;>
      first
      | rfl
      | exact absurd hmem (by assumption)
      | exact Bool.noConfusion (show false = true by assumption)
  · intro now req carrier h
    have hmem : toLowerStr req.sender ∈ getBlockedSenders freshStore := by
      rw [h]; decide
    simp only [sendBatchSMSeem]
    split_ifs <;>
      first
      | rfl
      | exact absurd hmem (by assumption)
      | exact Bool.noConfusion (show false = true by assumption)
  · intro now req carrierOk h
    have hmem : toLowerStr req.sender ∈ BLOCKED_SENDERS := by
      rw [h]; decide
    simp only [sendBatchMobivate]
    split_ifs <;>
      first
      | rfl
      | exact absurd hmem (by assumption)
      | exact Bool.noConfusion (show false = true by assumption)

/-- C10 witness: on the fresh store a single send with sender `Isracard` and a
batch send with sender `ISRACARD` are both answered 400. -/
theorem c10_default_blocklist_witness :
    sendStatus (sendSingleSMSeem 0 freshStore
      ⟨phoneIntl, msgHi, ['I', 's', 'r', 'a', 'c', 'a', 'r', 'd']⟩ .unexpected).1 = 400 ∧
    batchStatus (sendBatchMobivate 0 freshStore
      ⟨['I', 'S', 'R', 'A', 'C', 'A', 'R', 'D'], msgHi, [phoneLocal]⟩
      (fun _ => true)).1 = 400 := by
  exact ⟨c10_default_blocklist.2.2.1 0 _ _ (by decide),
    c10_default_blocklist.2.2.2.2.2 0 _ _ (by decide)⟩

/-- C7 counterexample: a Mobivate-variant single send that the carrier
accepts responds 200 with `creditsUsed`, yet leaves the store -- in particular
its `logs` -- unchanged: no `LogEntry` is appended. -/
theorem c7_counterexample :
    sendSingleMobivate 0 freshStore ⟨phoneIntl, msgHi, demoSender⟩ .okResp =
      (.okSent 2, freshStore, true) ∧
    freshStore.logs = [] := by decide

/-- C7 (amended): in the SMSeem variant every carrier-accepted single send
appends, before the success response, a `single_send` `LogEntry` carrying the
sender, recipient, provider message id, credit cost, and a message preview of
at most 40 code units; the Mobivate variant returns the success response
without appending anything. -/
theorem c7_single_send_logging :
    (∀ (now : Int) (store : Store) (req : SendRequest) (messageId recipient : Str)
      (creditsRemaining : Int),
      computeIsExpired now store = false →
      isNonEmptyString req.«to» = true →
      phoneRegexSMSeem req.«to» = true →
      isNonEmptyMessage req.message = true →
      0 < calculateCreditsForMessage req.message req.sender →
      isNonEmptyString req.sender = true →
      toLowerStr req.sender ∉ getBlockedSenders store →
      convertToIsraeliFormat req.«to» = some recipient →
      sendSingleSMSeem now store req (.success messageId creditsRemaining) =
        (.okSent messageId (calculateCreditsForMessage req.message req.sender)
            creditsRemaining,
          appendLog store (.singleSend req.sender recipient messageId
            (calculateCreditsForMessage req.message req.sender)
            (req.message.take 40) creditsRemaining),
          true)) ∧
    (∀ m : Msg, (m.take 40).length ≤ 40) ∧
    (∀ (now : Int) (store : Store) (req : SendRequest) (recipient : Str),
      computeIsExpired now store = false →
      isNonEmptyString req.«to» = true →
      matches972 req.«to» = true →
      isNonEmptyMessage req.message = true →
      0 < calculateCreditsForMessage req.message req.sender →
      isNonEmptyString req.sender = true →
      toLowerStr req.sender ∉ BLOCKED_SENDERS →
      normalizeMsisdn req.«to» = some recipient →
      sendSingleMobivate now store req .okResp =
        (.okSent (calculateCreditsForMessage req.message req.sender), store, true)) := by
  refine ⟨?_, ?_, ?_⟩
  · intro now store req messageId recipient creditsRemaining hexp hto1 hto2 hmsg hcred
      hsend hblock hconv
    have h1 : calculateCreditsForMessage req.message req.sender ≠ 0 := by omega
    have h2 : ¬ calculateCreditsForMessage req.message req.sender < 0 := by omega
    simp [sendSingleSMSeem, hexp, hto1, hto2, hmsg, h1, h2, hsend, hblock, hconv]
  · intro m
    simp only [List.length_take]
    exact min_le_left _ _
  · intro now store req recipient hexp hto1 hto2 hmsg hcred hsend hblock hconv
    have h1 : calculateCreditsForMessage req.message req.sender ≠ 0 := by omega
    have h2 : ¬ calculateCreditsForMessage req.message req.sender < 0 := by omega
    simp [sendSingleMobivate, hexp, hto1, hto2, hmsg, h1, h2, hsend, hblock, hconv]

/-- C7 witness: a concrete SMSeem single send the carrier accepts appends
exactly the expected log entry. -/
theorem c7_single_send_logging_witness :
    sendSingleSMSeem 0 freshStore ⟨phoneIntl, msgHi, demoSender⟩
        (.success ['m', '1'] 7) =
      (.okSent ['m', '1'] 2 7,
        appendLog freshStore (.singleSend demoSender phoneLocal ['m', '1'] 2 msgHi 7),
        true) ∧
    (msgHi.take 40).length ≤ 40 := by
  refine ⟨?_, c7_single_send_logging.2.1 msgHi⟩
  have h := c7_single_send_logging.1 0 freshStore ⟨phoneIntl, msgHi, demoSender⟩
    ['m', '1'] phoneLocal 7 (by decide) (by decide) (by decide) (by decide) (by decide)
    (by decide) (by decide) (by decide)
  rw [h]
  decide

/-- C1 counterexample: in the Mobivate variant a 2-recipient batch of which
the carrier accepts only one (`success = 1`) still deducts
`perMessage * attempted = 4` (balance 4 becomes 0), while the claim's
`balance - cost * sent` would be 2. -/
theorem c1_counterexample :
    (sendBatchMobivate 0 { freshStore with credits := 4 }
        ⟨demoSender, msgHi, [phoneLocal, phoneLocal2]⟩
        (fun r => decide (r = phoneLocal))).1 =
      .okSent 2 1 none 2 4 0 ∧
    (sendBatchMobivate 0 { freshStore with credits := 4 }
        ⟨demoSender, msgHi, [phoneLocal, phoneLocal2]⟩
        (fun r => decide (r = phoneLocal))).2.1.credits = 0 ∧
    (4 : Int) - 2 * 1 = 2 ∧ (0 : Int) ≠ 2 := by
  decide

/-- C1 (amended): the SMSeem batch deducts for the carrier-accepted count
(resulting balance = pre-dispatch balance − `sent` × per-message cost), but
the Mobivate batch deducts for the full attempted count (resulting balance =
pre-dispatch balance − distinct-recipients × per-message cost) regardless of
per-recipient outcomes. -/
theorem c1_batch_deduction :
    (∀ (now : Int) (store : Store) (req : BatchRequest) (sent failed : Nat)
      (failedNumbers : List Str),
      computeIsExpired now store = false →
      isNonEmptyString req.sender = true →
      toLowerStr req.sender ∉ getBlockedSenders store →
      isNonEmptyMessage req.message = true →
      0 < calculateCreditsForMessage req.message req.sender →
      (dedupKeepFirst (normalizedSMSeem req.recipients)).length ≠ 0 →
      ¬ store.credits < (dedupKeepFirst (normalizedSMSeem req.recipients)).length *
        calculateCreditsForMessage req.message req.sender →
      (sendBatchSMSeem now store req (.success sent failed failedNumbers)).2.1.credits =
        store.credits - sent * calculateCreditsForMessage req.message req.sender) ∧
    (∀ (now : Int) (store : Store) (req : BatchRequest) (carrierOk : Str → Bool),
      computeIsExpired now store = false →
      isNonEmptyString req.sender = true →
      toLowerStr req.sender ∉ BLOCKED_SENDERS →
      isNonEmptyMessage req.message = true →
      0 < calculateCreditsForMessage req.message req.sender →
      (dedupKeepFirst (normalizedMobivate req.recipients)).length ≠ 0 →
      ¬ store.credits < (dedupKeepFirst (normalizedMobivate req.recipients)).length *
        calculateCreditsForMessage req.message req.sender →
      (sendBatchMobivate now store req carrierOk).2.1.credits =
        store.credits - (dedupKeepFirst (normalizedMobivate req.recipients)).length *
          calculateCreditsForMessage req.message req.sender) := by
  constructor
  · intro now store req sent failed failedNumbers hexp hsend hblock hmsg hcred hrec hins
    have n1 : ¬ computeIsExpired now store = true := by simp [hexp]
    have n2 : ¬ ¬ isNonEmptyString req.sender = true := by simp [hsend]
    have n4 : ¬ ¬ isNonEmptyMessage req.message = true := by simp [hmsg]
    have h1 : ¬ calculateCreditsForMessage req.message req.sender = 0 := by omega
    have h2 : ¬ calculateCreditsForMessage req.message req.sender < 0 := by omega
    simp only [sendBatchSMSeem]
    rw [if_neg n1, if_neg n2, if_neg hblock, if_neg n4, if_neg h1, if_neg h2,
      if_neg hrec, if_neg hins]
    rfl
  · intro now store req carrierOk hexp hsend hblock hmsg hcred hrec hins
    have n1 : ¬ computeIsExpired now store = true := by simp [hexp]
    have n2 : ¬ ¬ isNonEmptyString req.sender = true := by simp [hsend]
    have n4 : ¬ ¬ isNonEmptyMessage req.message = true := by simp [hmsg]
    have h1 : ¬ calculateCreditsForMessage req.message req.sender = 0 := by omega
    have h2 : ¬ calculateCreditsForMessage req.message req.sender < 0 := by omega
    simp only [sendBatchMobivate]
    rw [if_neg n1, if_neg n2, if_neg hblock, if_neg n4, if_neg h1, if_neg h2,
      if_neg hrec, if_neg hins]
    rfl

/-- C1 witness: concrete passing batches in both variants, balance 10, cost 2,
one recipient, one accepted: both balances end at 8. -/
theorem c1_batch_deduction_witness :
    (sendBatchSMSeem 0 { freshStore with credits := 10 }
        ⟨demoSender, msgHi, [phoneIntl]⟩ (.success 1 0 [])).2.1.credits = 8 ∧
    (sendBatchMobivate 0 { freshStore with credits := 10 }
        ⟨demoSender, msgHi, [phoneLocal]⟩ (fun _ => true)).2.1.credits = 8 := by
  have h1 := c1_batch_deduction.1 0 { freshStore with credits := 10 }
    ⟨demoSender, msgHi, [phoneIntl]⟩ 1 0 []
    (by decide) (by decide) (by decide) (by decide) (by decide) (by decide) (by decide)
  have h2 := c1_batch_deduction.2 0 { freshStore with credits := 10 }
    ⟨demoSender, msgHi, [phoneLocal]⟩ (fun _ => true)
    (by decide) (by decide) (by decide) (by decide) (by decide) (by decide) (by decide)
  rw [h1, h2]
  constructor <;> decide

/-- C4 counterexample: the SMSeem batch deduction trusts the carrier-reported
`sent` count (`responseData.sent || 0`); a response claiming `sent = 2` on a
1-recipient batch writes a negative balance (2 − 2·2 = −2) to the ledger. -/
theorem c4_counterexample :
    (sendBatchSMSeem 0 { freshStore with credits := 2 }
        ⟨demoSender, msgHi, [phoneLocal]⟩ (.success 2 0 [])).2.1.credits = -2 ∧
    ¬ (0 : Int) ≤ -2 := by
  decide

set_option maxHeartbeats 3200000 in
/-- C4 (amended): every listed store-writing operation preserves
`credits ≥ 0` -- log and delivery appends, the admin credit set (which
rejects negative input), due-date set and renew, the blocked-sender
operations, and the Mobivate batch deduction unconditionally; the SMSeem
batch deduction preserves it provided the carrier-reported `sent` count does
not exceed the number of dispatched recipients (a carrier response with
`sent` greater than that drives the balance negative). -/
theorem c4_credits_nonneg :
    (∀ (store : Store) (e : LogEntry), (appendLog store e).credits = store.credits) ∧
    (∀ (store : Store) (d : Delivery), (appendDelivery store d).credits = store.credits) ∧
    (∀ (store : Store) (num : Int) (s2 : Store), setCreditsOp store num = some s2 →
      0 ≤ s2.credits) ∧
    (∀ (store : Store) (d : Option Int) (s2 : Store), setDueDateOp store d = some s2 →
      s2.credits = store.credits) ∧
    (∀ (store : Store) (t : Int), (renewMonthOp store t).credits = store.credits) ∧
    (∀ (store : Store) (input : List Str),
      (setBlockedSendersOp store input).credits = store.credits) ∧
    (∀ (store : Store) (s : Str) (s2 : Store), addBlockedSenderOp store s = some s2 →
      s2.credits = store.credits) ∧
    (∀ (store : Store) (s : Str) (s2 : Store), removeBlockedSenderOp store s = some s2 →
      s2.credits = store.credits) ∧
    (∀ (now : Int) (store : Store) (req : BatchRequest) (carrierOk : Str → Bool),
      0 ≤ store.credits → 0 ≤ (sendBatchMobivate now store req carrierOk).2.1.credits) ∧
    (∀ (now : Int) (store : Store) (req : BatchRequest) (carrier : BatchCarrier),
      0 ≤ store.credits →
      (∀ sent failed fn, carrier = BatchCarrier.success sent failed fn →
        sent ≤ (dedupKeepFirst (normalizedSMSeem req.recipients)).length) →
      0 ≤ (sendBatchSMSeem now store req carrier).2.1.credits) := by
  refine ⟨fun store e => rfl, fun store d => rfl, ?_, ?_, fun store t => rfl,
    fun store input => rfl, ?_, ?_, ?_, ?_⟩
  · intro store num s2 h
    simp only [setCreditsOp] at h
    split_ifs at h with hn
    obtain rfl := Option.some.inj h
    simp only [appendLog]
    omega
  · intro store d s2 h
    cases d with
    | none => exact Option.noConfusion h
    | some t =>
      obtain rfl := Option.some.inj h
      rfl
  · intro store s s2 h
    simp only [addBlockedSenderOp] at h
    split_ifs at h
    obtain rfl := Option.some.inj h
    rfl
  · intro store s s2 h
    simp only [removeBlockedSenderOp] at h
    split_ifs at h
    obtain rfl := Option.some.inj h
    rfl
  · intro now store req carrierOk h0
    simp only [sendBatchMobivate]
    split_ifs
    all_goals try exact h0
    rename_i hins
    show 0 ≤ store.credits -
      (dedupKeepFirst (normalizedMobivate req.recipients)).length *
        calculateCreditsForMessage req.message req.sender
    have h2 := not_lt.mp hins
    linarith
  · intro now store req carrier h0 hcar
    cases carrier with
    | errorResp m => simp only [sendBatchSMSeem]; split_ifs <;> exact h0
    | unexpected => simp only [sendBatchSMSeem]; split_ifs <;> exact h0
    | httpError n => simp only [sendBatchSMSeem]; split_ifs <;> exact h0
    | networkError => simp only [sendBatchSMSeem]; split_ifs <;> exact h0
    | success sent failed fn =>
      have hsent := hcar sent failed fn rfl
      simp only [sendBatchSMSeem]
      split_ifs
      all_goals try exact h0
      rename_i hins
      have hmc : 0 < calculateCreditsForMessage req.message req.sender := by omega
      show 0 ≤ store.credits -
        sent * calculateCreditsForMessage req.message req.sender
      have hsent2 : (sent : Int) ≤
          ((dedupKeepFirst (normalizedSMSeem req.recipients)).length : Int) := by
        exact_mod_cast hsent
      have hle : (sent : Int) * calculateCreditsForMessage req.message req.sender ≤
          ((dedupKeepFirst (normalizedSMSeem req.recipients)).length : Int) *
            calculateCreditsForMessage req.message req.sender :=
        mul_le_mul_of_nonneg_right hsent2 (le_of_lt hmc)
      have h2 := not_lt.mp hins
      linarith

/-- C4 witness: the preservation statements applied at concrete points -- a
log append, an admin credit set, and passing batches in both variants. -/
theorem c4_credits_nonneg_witness :
    0 ≤ (appendLog { freshStore with credits := 3 } (.renewMonthEntry 5)).credits ∧
    0 ≤ (appendLog { freshStore with credits := 7 } (.setCreditsEntry 7)).credits ∧
    0 ≤ (sendBatchMobivate 0 { freshStore with credits := 4 }
      ⟨demoSender, msgHi, [phoneLocal]⟩ (fun _ => false)).2.1.credits ∧
    0 ≤ (sendBatchSMSeem 0 { freshStore with credits := 4 }
      ⟨demoSender, msgHi, [phoneLocal]⟩ (.success 1 0 [])).2.1.credits := by
  refine ⟨?_, ?_, ?_, ?_⟩
  · rw [c4_credits_nonneg.1 { freshStore with credits := 3 } (.renewMonthEntry 5)]
    decide
  · exact c4_credits_nonneg.2.2.1 freshStore 7 _ (by decide)
  · exact c4_credits_nonneg.2.2.2.2.2.2.2.2.1 0 _ _ _ (by decide)
  · refine c4_credits_nonneg.2.2.2.2.2.2.2.2.2 0 _ _ _ (by decide) ?_
    intro sent failed fn h
    cases h
    decide

/-- C8: `addOneMonth` maps a valid date to the same day of the next calendar
month, clamped to that month's last day on rollover; in particular
2024-01-31 renews to 2024-02-29 (leap year) and 2023-01-31 to 2023-02-28.
(Months are 0-based as in JavaScript `Date`.) -/
theorem c8_add_one_month :
    (∀ d : CalDate, d.valid →
      addOneMonth d =
        (if d.day ≤ daysInMonth (nextMonth d.year d.month).1 (nextMonth d.year d.month).2
         then ⟨(nextMonth d.year d.month).1, (nextMonth d.year d.month).2, d.day⟩
         else ⟨(nextMonth d.year d.month).1, (nextMonth d.year d.month).2,
           daysInMonth (nextMonth d.year d.month).1 (nextMonth d.year d.month).2⟩)) ∧
    addOneMonth ⟨2024, 0, 31⟩ = ⟨2024, 1, 29⟩ ∧
    addOneMonth ⟨2023, 0, 31⟩ = ⟨2023, 1, 28⟩ := by
  refine ⟨?_, by decide, by decide⟩
  intro d hv
  obtain ⟨hm, hd1, hd2⟩ := hv
  by_cases h : d.day ≤ daysInMonth (nextMonth d.year d.month).1 (nextMonth d.year d.month).2
  · rw [if_pos h]
    simp only [addOneMonth, setMonthPlusOne, if_pos h]
    rw [if_neg (lt_irrefl d.day)]
  · rw [if_neg h]
    have hD : 0 < daysInMonth (nextMonth d.year d.month).1 (nextMonth d.year d.month).2 := by
      unfold daysInMonth
      split_ifs <;> omega
    have hlt : d.day - daysInMonth (nextMonth d.year d.month).1 (nextMonth d.year d.month).2
        < d.day := Nat.sub_lt (by omega) hD
    simp only [addOneMonth, setMonthPlusOne, if_neg h]
    rw [if_pos hlt]
    simp only [setDateZero, nextMonth]
    by_cases h11 : d.month = 11
    · simp [h11]
    · simp only [h11, if_false]
      by_cases h10 : d.month + 1 = 11
      · simp [h10]
      · simp [h10]

/-- C8 witness: the general clamp statement applied at 2024-01-31. -/
theorem c8_add_one_month_witness :
    addOneMonth ⟨2024, 0, 31⟩ =
      (if 31 ≤ daysInMonth (nextMonth 2024 0).1 (nextMonth 2024 0).2
       then ⟨(nextMonth 2024 0).1, (nextMonth 2024 0).2, 31⟩
       else ⟨(nextMonth 2024 0).1, (nextMonth 2024 0).2,
         daysInMonth (nextMonth 2024 0).1 (nextMonth 2024 0).2⟩) := by
  exact c8_add_one_month.1 ⟨2024, 0, 31⟩ ⟨by decide, by decide, by decide⟩

end SMSender
